import Mathlib

/-!
Verification development for the partition reconciliation and synchronization
engine of the SQL-Server extractor repository.  The definitions below are a
shallow embedding of the Python source files `s3_storage.py`, `azure_storage.py`
and `storage.py`: partition strings are lists of characters, Python `set`s are
duplicate-free lists compared by membership (`eqConj`, `subconj`), and the
remote object store is a list of object keys in listing order.  Remote calls
(listing pages, bulk deletes, per-file uploads) are modelled by explicit data:
a store list, a page size, and outcome functions mapping a delete chunk or an
uploaded file to an optional error.
-/

namespace Extrator

/-- Partition strings and object keys, modelled as lists of characters so that
Python's character-level `startswith` / `in` / `rstrip` semantics are exact. -/
abbrev Str := List Char

/-- Build a `Str` from a string literal. -/
def str (s : String) : Str := s.data

/-- The path separator character. -/
def sep : Char := '/'

/-- A Python `set` of partition strings, modelled as a duplicate-free list in
an arbitrary (but fixed) iteration order. -/
abbrev Conj := List Str

/-- Python `x in s` for sets. -/
def membro (x : Str) (s : Conj) : Bool := s.contains x

/-- Python `a.issubset(b)`. -/
def subconj (a b : Conj) : Bool := a.all (fun x => membro x b)

/-- Python set equality `a == b`: same members, regardless of order. -/
def eqConj (a b : Conj) : Bool := subconj a b && subconj b a

/-- A Python set comprehension `{f x for x in s}`: map then deduplicate. -/
def imagem (f : Str → Str) (s : Conj) : Conj := (s.map f).dedup

/-- Python set union `a | b`. -/
def uniao (a b : Conj) : Conj := (a ++ b).dedup

/-- `normalizar_particao` (both backends): strips all trailing `/` characters,
exactly like Python's `rstrip("/")`. -/
def normalizar (p : Str) : Str := (p.reverse.dropWhile (fun c => c == sep)).reverse

/-- Python substring test `sub in s` on strings. -/
def contem (sub : Str) : Str → Bool
  | [] => sub.isEmpty
  | c :: t => sub.isPrefixOf (c :: t) || contem sub t

/-- Python `s.split("/")[0]`: the characters before the first `/` (the whole
string when no separator occurs). -/
def primeiroSegmento (p : Str) : Str := p.takeWhile (fun c => c != sep)

/-- Python `s.rsplit("/", 1)[0]`: everything before the last `/`, or the whole
string when no separator occurs. -/
def rsplitCabeca (p : Str) : Str :=
  if p.contains sep then ((p.reverse.dropWhile (fun c => c != sep)).drop 1).reverse else p

/-- Python `"/".join(s.split("/")[:-1])`: everything before the last `/`, or
the empty string when no separator occurs (used by `extrair_particoes_dos_objetos`
to drop the file-name segment of an object key). -/
def removerUltimoSegmento (p : Str) : Str :=
  if p.contains sep then ((p.reverse.dropWhile (fun c => c != sep)).drop 1).reverse else []

/-- Python `s.endswith("/")`. -/
def terminaComBarra (p : Str) : Bool := p.getLast? == some sep

/-- Year marker token from the source. -/
def tokAno : Str := str "Ano="

/-- Month marker token. -/
def tokMes : Str := str "Mes="

/-- Day marker token. -/
def tokDia : Str := str "Dia="

/-- Tenant marker token. -/
def tokEmpresa : Str := str "idEmpresa="

/-- `filtrar_particoes_existentes` inner predicate: an existing partition
belongs to the reload set when, after normalization, it equals a reloaded
partition or extends one with a `/` separator (the spec's "covers" relation). -/
def pertenceRecarregadas (recarregadasNorm : Conj) (p : Str) : Bool :=
  recarregadasNorm.any
    (fun rec => normalizar p == rec || (rec ++ [sep]).isPrefixOf (normalizar p))

/-- `filtrar_particoes_existentes` (identical in `s3_storage.py` and
`azure_storage.py`): keeps only the existing partitions covered by some member
of the reload set. -/
def filtrar_particoes_existentes (particoesExistentes particoesRecarregadas : Conj) : Conj :=
  particoesExistentes.filter (pertenceRecarregadas (imagem normalizar particoesRecarregadas))

/-- An exclusion plan for the S3 backend: the Python dict
`{"Dia": …, "Mes": …, "Ano": …, "idEmpresa": …}` (the tenant-only branch
returns a dict with only the `idEmpresa` key, modelled with the other three
levels empty). -/
structure PlanoS3 where
  dia : Conj
  mes : Conj
  ano : Conj
  idEmpresa : Conj
deriving DecidableEq

/-- An exclusion plan for the Azure backend: the Python dict
`{"Mes": …, "Ano": …, "idEmpresa": …}`. -/
structure PlanoAzure where
  mes : Conj
  ano : Conj
  idEmpresa : Conj
deriving DecidableEq

/-- Date-marker test of the S3 planner (`Ano=`, `Mes=` or `Dia=`). -/
def temIndicadorDataS3 (r : Str) : Bool :=
  contem tokAno r || contem tokMes r || contem tokDia r

/-- Date-marker test of the Azure planner (`Ano=` or `Mes=` only). -/
def temIndicadorDataAzure (r : Str) : Bool :=
  contem tokAno r || contem tokMes r

/-- Tenant keys derived from the reload set: first path segment of every
normalized reloaded partition that contains `idEmpresa=` anywhere. -/
def idEmpresasDe (rn : Conj) : Conj :=
  imagem (fun r => primeiroSegmento (normalizar r)) (rn.filter (fun r => contem tokEmpresa r))

/-- `definir_particoes_para_exclusao` from `s3_storage.py`.  Returns `none` for
the Python `return {}` on an empty existing set, `some plan` otherwise.
All grouping comparisons use raw string `startswith`, as in the source. -/
def definir_particoes_para_exclusao_s3 (particoesExistentes particoesRecarregadas : Conj) :
    Option PlanoS3 :=
  if particoesExistentes.isEmpty then none else
  let rn := imagem normalizar particoesRecarregadas
  if !(rn.any temIndicadorDataS3) then
    let keep := (idEmpresasDe rn).filter
      (fun t => particoesExistentes.any (fun p => t.isPrefixOf (normalizar p)))
    some ⟨[], [], [], keep⟩
  else
    let dia := rn.filter (fun r => contem tokAno r && contem tokMes r && contem tokDia r)
    let mesCands := imagem rsplitCabeca dia
    let en := imagem normalizar particoesExistentes
    let mes := mesCands.filter (fun m =>
      let diasEx := en.filter (fun p => m.isPrefixOf p)
      !diasEx.isEmpty && eqConj diasEx (dia.filter (fun r => rsplitCabeca r == m)))
    let anoCands := imagem primeiroSegmento mes
    let ano := anoCands.filter (fun a =>
      let mesesEx := en.filter (fun p => a.isPrefixOf p)
      !mesesEx.isEmpty && eqConj mesesEx (mes.filter (fun m => primeiroSegmento m == a)))
    let excl := uniao (uniao dia mes) ano
    let keep := (idEmpresasDe rn).filter (fun t =>
      let pe := en.filter (fun p => t.isPrefixOf p)
      !pe.isEmpty && subconj pe excl)
    some ⟨dia, mes, ano, keep⟩

/-- `definir_particoes_para_exclusao` from `azure_storage.py`: same structure
as the S3 planner but with no `Dia` level — the `Mes` level is seeded directly
from the reloaded keys containing both `Ano=` and `Mes=`. -/
def definir_particoes_para_exclusao_azure (particoesExistentes particoesRecarregadas : Conj) :
    Option PlanoAzure :=
  if particoesExistentes.isEmpty then none else
  let rn := imagem normalizar particoesRecarregadas
  if !(rn.any temIndicadorDataAzure) then
    let keep := (idEmpresasDe rn).filter
      (fun t => particoesExistentes.any (fun p => t.isPrefixOf (normalizar p)))
    some ⟨[], [], keep⟩
  else
    let mes := rn.filter (fun r => contem tokAno r && contem tokMes r)
    let anoCands := imagem primeiroSegmento mes
    let en := imagem normalizar particoesExistentes
    let ano := anoCands.filter (fun a =>
      let mesesEx := en.filter (fun p => a.isPrefixOf p)
      !mesesEx.isEmpty && eqConj mesesEx (mes.filter (fun m => primeiroSegmento m == a)))
    let excl := uniao mes ano
    let keep := (idEmpresasDe rn).filter (fun t =>
      let pe := en.filter (fun p => t.isPrefixOf p)
      !pe.isEmpty && subconj pe excl)
    some ⟨mes, ano, keep⟩

/-- `idEmpresa` level of an S3 planner result (empty for the `{}` case). -/
def nivelIdEmpresaS3 (o : Option PlanoS3) : Conj :=
  match o with
  | some pl => pl.idEmpresa
  | none => []

/-- `Ano` level of an S3 planner result. -/
def nivelAnoS3 (o : Option PlanoS3) : Conj :=
  match o with
  | some pl => pl.ano
  | none => []

/-- `idEmpresa` level of an Azure planner result. -/
def nivelIdEmpresaAzure (o : Option PlanoAzure) : Conj :=
  match o with
  | some pl => pl.idEmpresa
  | none => []

/-- `Ano` level of an Azure planner result. -/
def nivelAnoAzure (o : Option PlanoAzure) : Conj :=
  match o with
  | some pl => pl.ano
  | none => []

/-- `Mes` level of an Azure planner result. -/
def nivelMesAzure (o : Option PlanoAzure) : Conj :=
  match o with
  | some pl => pl.mes
  | none => []

/-- `chunk_list` (both backends): splits a key list into consecutive chunks of
`n` keys.  Structural fuel recursion (the fuel `lst.length` is always enough
because each step consumes at least one element when `n ≥ 1`; the source is
only called with `n = 1000` or `n = 256`, and Python raises on `n = 0`). -/
def chunkAux (n : Nat) : Nat → List Str → List (List Str)
  | _, [] => []
  | 0, _ => []
  | fuel + 1, x :: xs => (x :: xs).take n :: chunkAux n fuel ((x :: xs).drop n)

/-- `chunk_list lst n` as in the source (argument order of the Python function). -/
def chunk_list (lst : List Str) (n : Nat) : List (List Str) :=
  if n = 0 then [] else chunkAux n lst.length lst

/-- Result of `executar_exclusao_objetos_batch`: the delete calls issued (one
chunk per `delete_objects` request, all submitted to the thread pool), the
dry-run "would delete" count reported instead of deleting, and whether the
aggregate `Exception("Falha na deleção em batch…")` is raised after every
chunk has completed. -/
structure ResultadoExclusao where
  chamadas : List (List Str)
  contagemDryRun : Option Nat
  falhou : Bool
deriving DecidableEq

/-- `executar_exclusao_objetos_batch` from `s3_storage.py`.  `delErr` models the
remote outcome of one `delete_objects` call on a chunk (`some e` = that chunk's
batch failed).  On dry run nothing is submitted and only the key count is
reported.  Otherwise every chunk of 1000 keys is submitted to the pool; errors
are collected without cancelling other chunks, and the aggregate exception is
raised iff at least one chunk failed. -/
def executar_exclusao_objetos_batch (delErr : List Str → Option String)
    (objectKeys : List Str) (dryRun : Bool) : ResultadoExclusao :=
  if dryRun then ⟨[], some objectKeys.length, false⟩
  else
    let chunks := chunk_list objectKeys 1000
    ⟨chunks, none, !(chunks.filter (fun c => (delErr c).isSome)).isEmpty⟩

/-- `listar_objetos_s3`: the pagination loop follows `NextContinuationToken`
until `IsTruncated` is false, so it returns every stored key with the given
prefix, in listing order. -/
def listar_objetos_s3 (store : List Str) (p : Str) : List Str :=
  store.filter (fun k => p.isPrefixOf k)

/-- A single unpaginated `list_objects_v2` call: only the first page (at most
`pageSize` matching keys; the real S3 API caps a page at 1000 keys). -/
def listar_pagina_s3 (pageSize : Nat) (store : List Str) (p : Str) : List Str :=
  (store.filter (fun k => p.isPrefixOf k)).take pageSize

/-- The per-partition delete prefix `f"{caminho_destino}/{particao}".rstrip("/") + "/"`. -/
def prefixoDelecao (dest part : Str) : Str := normalizar (dest ++ [sep] ++ part) ++ [sep]

/-- Plan entries in S3 dict insertion order: `Dia`, `Mes`, `Ano`, `idEmpresa`. -/
def entradasS3 (pl : PlanoS3) : List Str := pl.dia ++ pl.mes ++ pl.ano ++ pl.idEmpresa

/-- Plan entries in Azure dict insertion order: `Mes`, `Ano`, `idEmpresa`. -/
def entradasAzure (pl : PlanoAzure) : List Str := pl.mes ++ pl.ano ++ pl.idEmpresa

/-- The object-key collection loop of `limpar_prefixo_no_s3` (lines 239-245):
for each plan entry it issues ONE unpaginated `list_objects_v2` call and keeps
the keys that do not end in `/`. -/
def coletarChavesS3 (pageSize : Nat) (store : List Str) (dest : Str) (pl : PlanoS3) :
    List Str :=
  (entradasS3 pl).flatMap (fun part =>
    (listar_pagina_s3 pageSize store (prefixoDelecao dest part)).filter
      (fun k => !terminaComBarra k))

/-- The blob-name collection loop of `limpar_prefixo_no_azure` (lines 209-215):
`container_client.list_blobs` iterates every page, so each plan entry
contributes all keys under its prefix that do not end in `/`. -/
def coletarChavesAzure (store : List Str) (dest : Str) (pl : PlanoAzure) : List Str :=
  (entradasAzure pl).flatMap (fun part =>
    (listar_objetos_s3 store (prefixoDelecao dest part)).filter
      (fun k => !terminaComBarra k))

/-- `extrair_particoes_dos_objetos` composed with the `idEmpresa=` filter and
destination-prefix stripping of `limpar_prefixo_no_s3` (lines 214-222). -/
def particoesExistentesDe (store : List Str) (dest : Str) : Conj :=
  let objetos := listar_objetos_s3 store dest
  let e0 := imagem (fun k => normalizar (removerUltimoSegmento k)) objetos
  let e1 := imagem normalizar (e0.filter (fun p => contem tokEmpresa p))
  let pref := normalizar dest
  imagem (fun p =>
    if (pref ++ [sep]).isPrefixOf p then normalizar (p.drop (pref.length + 1))
    else normalizar p) e1

/-- `limpar_prefixo_no_s3`: lists the remote store, derives and filters the
existing partitions, plans the exclusion, collects the object keys (one
unpaginated listing call per plan entry) and runs the batch delete.  `none`
models the early `return`s (nothing to delete); `some r` carries the batch
delete outcome. -/
def limpar_prefixo_no_s3 (pageSize : Nat) (store : List Str) (dest : Str)
    (recarregadas : List Str) (delErr : List Str → Option String) (dryRun : Bool) :
    Option ResultadoExclusao :=
  if recarregadas.isEmpty then none else
  let existentes := filtrar_particoes_existentes (particoesExistentesDe store dest)
      (imagem normalizar recarregadas)
  if existentes.isEmpty then none else
  match definir_particoes_para_exclusao_s3 existentes recarregadas.dedup with
  | none => none
  | some pl =>
    let objectKeys := coletarChavesS3 pageSize store dest pl
    if objectKeys.isEmpty then none else
    some (executar_exclusao_objetos_batch delErr objectKeys dryRun)

/-- Delete calls issued by a `limpar_prefixo_no_s3` run (empty when the run
returned early). -/
def chamadasDe (o : Option ResultadoExclusao) : List (List Str) :=
  match o with
  | some r => r.chamadas
  | none => []

/-- Result dict of the upload orchestrators: `{"enviados": …, "erros": …}`. -/
structure ResultadoUpload where
  enviados : List Str
  erros : List String
deriving DecidableEq

/-- Destination key of one local file: `f"{caminho_destino}/{relative_path}"`. -/
def destinoDe (dest rel : Str) : Str := dest ++ [sep] ++ rel

/-- `realizar_upload_s3_async` / `realizar_upload_azure_async` (identical
orchestration logic): walks the local tree (`arquivos` is the list of relative
paths found), returns the empty result when there is nothing to upload, and
otherwise gathers every per-file outcome (`upErr rel = some e` models that
file's upload raising `e`; `asyncio.gather(…, return_exceptions=True)` turns
exceptions into data), partitioning results into `enviados` and `erros`
without ever aborting early. -/
def realizar_upload_async (dest : Str) (arquivos : List Str)
    (upErr : Str → Option String) : ResultadoUpload :=
  if arquivos.isEmpty then ⟨[], []⟩ else
  let resultados : List (Except String Str) := arquivos.map (fun rel =>
    match upErr rel with
    | none => Except.ok (destinoDe dest rel)
    | some e => Except.error e)
  ⟨resultados.filterMap (fun r => match r with | Except.ok d => some d | _ => none),
   resultados.filterMap (fun r => match r with | Except.error e => some e | _ => none)⟩

/-- A full S3 backend run (`realizar_upload_s3`): the delete phase runs first;
if it raises (aggregate batch failure) the upload phase never starts and the
exception escapes to the coordinator; otherwise the upload phase runs. -/
structure ExecucaoSync where
  exclusao : Option ResultadoExclusao
  uploadExecutado : Bool
  upload : ResultadoUpload
deriving DecidableEq

/-- `realizar_upload_s3` from `s3_storage.py` (delete-then-upload for one
backend). -/
def realizar_upload_s3 (pageSize : Nat) (store : List Str) (dest : Str)
    (recarregadas : List Str) (delErr : List Str → Option String) (dryRun : Bool)
    (arquivos : List Str) (upErr : Str → Option String) : ExecucaoSync :=
  match limpar_prefixo_no_s3 pageSize store dest recarregadas delErr dryRun with
  | some r =>
    if r.falhou then ⟨some r, false, ⟨[], []⟩⟩
    else ⟨some r, true, realizar_upload_async dest arquivos upErr⟩
  | none => ⟨none, true, realizar_upload_async dest arquivos upErr⟩

/-- Whether the delete phase of a backend run raised its aggregate failure. -/
def exclusaoFalhou (run : ExecucaoSync) : Bool :=
  match run.exclusao with
  | some r => r.falhou
  | none => false

/-- `enviar_para_s3` from `storage.py`: catches any exception from the run
(including the batch-delete aggregate failure) and converts it to `False`;
otherwise succeeds iff the upload reported zero errors. -/
def enviar_para_s3 (pageSize : Nat) (store : List Str) (dest : Str)
    (recarregadas : List Str) (delErr : List Str → Option String) (dryRun : Bool)
    (arquivos : List Str) (upErr : Str → Option String) : Bool :=
  let run := realizar_upload_s3 pageSize store dest recarregadas delErr dryRun arquivos upErr
  if exclusaoFalhou run then false else run.upload.erros.isEmpty

/-- The `destino_tipo` values accepted by `enviar_resultados`. -/
inductive DestinoTipo where
  | azure
  | s3
  | ambos
deriving DecidableEq

/-- One pass of the `as_completed` result loop in `enviar_resultados`
(`storage.py` lines 38-50): for each completed future the SAME result value is
written to `success_azure` whenever the Azure backend is targeted and to
`success_s3` whenever the S3 backend is targeted — the loop does not know
which backend the finished future belongs to. -/
def atualizarFlags (t : DestinoTipo) (st : Option Bool × Option Bool) (r : Bool) :
    Option Bool × Option Bool :=
  ((if t = DestinoTipo.azure ∨ t = DestinoTipo.ambos then some r else st.1),
   (if t = DestinoTipo.s3 ∨ t = DestinoTipo.ambos then some r else st.2))

/-- `enviar_resultados` from `storage.py`, abstracted over the per-backend
pipelines: `conclusoes` is the list of future results in completion order
(each entry the boolean returned by `enviar_para_azure` / `enviar_para_s3`;
a future whose `result()` raises is recorded as `false`, matching the
`except` branch).  Python's final `success_azure is True` tests become
`== some true` (a never-assigned flag stays `none`). -/
def enviar_resultados (t : DestinoTipo) (conclusoes : List Bool) : Bool :=
  let st := conclusoes.foldl (atualizarFlags t) (none, none)
  match t with
  | DestinoTipo.azure => st.1 == some true
  | DestinoTipo.s3 => st.2 == some true
  | DestinoTipo.ambos => (st.1 == some true) && (st.2 == some true)

/-- Dict-style S3 configuration: `Option` fields model key presence. -/
structure ConfigS3 where
  s3_client : Option Unit
  access_key : Option Str
  secret_key : Option Str
  region : Option Str
  bucket : Option Str
deriving DecidableEq

/-- Dict-style Azure configuration. -/
structure ConfigAzure where
  blob_service_client : Option Unit
  account_name : Option Str
  account_key : Option Str
  container_name : Option Str
deriving DecidableEq

/-- `validar_config_s3` from `s3_storage.py`: when no client is present it
builds one with `boto3.client("s3", aws_access_key_id=cfg.get("access_key"),
…)`.  `dict.get` returns `None` for missing keys and `boto3.client` defers all
credential resolution, so construction succeeds even with every credential
absent — the function contains no validation check and never raises. -/
def validar_config_s3 (cfg : ConfigS3) : Except String ConfigS3 :=
  if cfg.s3_client.isSome then Except.ok cfg
  else Except.ok { cfg with s3_client := some () }

/-- `validar_config_azure` from `azure_storage.py`: when no client is present
it requires both `account_name` and `account_key`, raising `ValueError`
otherwise.  The container name is not checked. -/
def validar_config_azure (cfg : ConfigAzure) : Except String ConfigAzure :=
  if cfg.blob_service_client.isSome then Except.ok cfg
  else if cfg.account_name.isSome ∧ cfg.account_key.isSome then
    Except.ok { cfg with blob_service_client := some () }
  else Except.error "Configuração do Azure está incompleta. Forneça account_name e account_key."

/-- Claim C1 (code-bug evidence).  ExistingSet
`{idEmpresa=1/Ano=2024/Mes=01/Dia=05, idEmpresa=1/Ano=2023/Mes=12/Dia=01}`,
ReloadSet `{idEmpresa=1/Ano=2024/Mes=01/Dia=05}`: the 2023 partition of
tenant `idEmpresa=1` exists remotely and is not covered by any reloaded
partition, yet the pipeline `filtrar_particoes_existentes` followed by
`definir_particoes_para_exclusao` (S3 version) schedules `idEmpresa=1` at the
`idEmpresa` level — a full-tenant prefix delete that would destroy the
untouched 2023 data.  The filter removes the uncovered partition before the
planner's tenant-subset check, so the check passes vacuously, contradicting
the safety invariant the claim states (and the code's own log message that
such tenants are not excluded). -/
theorem c1_tenant_com_dados_fora_da_recarga_e_promovido :
    membro (str "idEmpresa=1/Ano=2023/Mes=12/Dia=01")
      [str "idEmpresa=1/Ano=2024/Mes=01/Dia=05",
       str "idEmpresa=1/Ano=2023/Mes=12/Dia=01"] = true ∧
    pertenceRecarregadas (imagem normalizar [str "idEmpresa=1/Ano=2024/Mes=01/Dia=05"])
      (str "idEmpresa=1/Ano=2023/Mes=12/Dia=01") = false ∧
    membro (str "idEmpresa=1")
      (nivelIdEmpresaS3 (definir_particoes_para_exclusao_s3
        (filtrar_particoes_existentes
          [str "idEmpresa=1/Ano=2024/Mes=01/Dia=05",
           str "idEmpresa=1/Ano=2023/Mes=12/Dia=01"]
          [str "idEmpresa=1/Ano=2024/Mes=01/Dia=05"])
        [str "idEmpresa=1/Ano=2024/Mes=01/Dia=05"])) = true := by decide

/-- Claim C2 (code-bug evidence).  With `destino_tipo = "ambos"`, the Azure
pipeline failing (`False`) and the S3 pipeline succeeding (`True`), and the
Azure future completing first, `enviar_resultados` returns `True` although the
AND of the two backend results is `False`: each completed future's result
overwrites BOTH `success_azure` and `success_s3`, so the aggregate equals the
last-completed future's result. -/
theorem c2_ambos_devolve_ultimo_resultado_concluido :
    enviar_resultados DestinoTipo.ambos [false, true] = true ∧
    (false && true) = false := by decide

/-- Claim C3 (counterexample).  Scenario A: ExistingSet = ReloadSet =
`{idEmpresa=1/Ano=2024/Mes=01, idEmpresa=1/Ano=2024/Mes=02}`.  The claim says
both backends' plans contain `idEmpresa=1/Ano=2024` at the `Ano` level and
`idEmpresa=1` at the `idEmpresa` level.  In fact the S3 planner (which seeds
only from `Dia=` keys) produces nothing at either level, and the Azure
planner's `Ano` level holds the tenant key `idEmpresa=1` (from
`mes.split("/")[0]`), never `idEmpresa=1/Ano=2024`. -/
theorem c3_cenario_a_contraexemplo :
    membro (str "idEmpresa=1/Ano=2024")
      (nivelAnoS3 (definir_particoes_para_exclusao_s3
        [str "idEmpresa=1/Ano=2024/Mes=01", str "idEmpresa=1/Ano=2024/Mes=02"]
        [str "idEmpresa=1/Ano=2024/Mes=01", str "idEmpresa=1/Ano=2024/Mes=02"])) = false ∧
    membro (str "idEmpresa=1")
      (nivelIdEmpresaS3 (definir_particoes_para_exclusao_s3
        [str "idEmpresa=1/Ano=2024/Mes=01", str "idEmpresa=1/Ano=2024/Mes=02"]
        [str "idEmpresa=1/Ano=2024/Mes=01", str "idEmpresa=1/Ano=2024/Mes=02"])) = false ∧
    membro (str "idEmpresa=1/Ano=2024")
      (nivelAnoAzure (definir_particoes_para_exclusao_azure
        [str "idEmpresa=1/Ano=2024/Mes=01", str "idEmpresa=1/Ano=2024/Mes=02"]
        [str "idEmpresa=1/Ano=2024/Mes=01", str "idEmpresa=1/Ano=2024/Mes=02"])) = false := by
  decide

/-- Claim C3 (amended).  The actual Scenario A plans: the S3 planner returns a
plan that is empty at every level (its `Dia` seed set is empty because no
reloaded key contains `Dia=`, so nothing ever rolls up and the tenant-subset
check fails); the Azure planner collects both month keys at the `Mes` level
and promotes the tenant key `idEmpresa=1` into both its `Ano` and `idEmpresa`
levels. -/
theorem c3_cenario_a_planos_reais :
    definir_particoes_para_exclusao_s3
      [str "idEmpresa=1/Ano=2024/Mes=01", str "idEmpresa=1/Ano=2024/Mes=02"]
      [str "idEmpresa=1/Ano=2024/Mes=01", str "idEmpresa=1/Ano=2024/Mes=02"] =
      some ⟨[], [], [], []⟩ ∧
    definir_particoes_para_exclusao_azure
      [str "idEmpresa=1/Ano=2024/Mes=01", str "idEmpresa=1/Ano=2024/Mes=02"]
      [str "idEmpresa=1/Ano=2024/Mes=01", str "idEmpresa=1/Ano=2024/Mes=02"] =
      some ⟨[str "idEmpresa=1/Ano=2024/Mes=01", str "idEmpresa=1/Ano=2024/Mes=02"],
            [str "idEmpresa=1"], [str "idEmpresa=1"]⟩ := by decide

/-- Claim C4 (counterexample).  A planner-produced Azure plan (ExistingSet =
ReloadSet = `{idEmpresa=1/Ano=2024/Mes=01}`) holds the month key at the `Mes`
level and the tenant key at BOTH the `Ano` and `idEmpresa` levels; the
key-collection loop then lists the same object under all three covering
prefixes, so its key is handed to the bulk-delete executor three times. -/
theorem c4_chaves_duplicadas_contraexemplo :
    definir_particoes_para_exclusao_azure
      [str "idEmpresa=1/Ano=2024/Mes=01"] [str "idEmpresa=1/Ano=2024/Mes=01"] =
      some ⟨[str "idEmpresa=1/Ano=2024/Mes=01"], [str "idEmpresa=1"], [str "idEmpresa=1"]⟩ ∧
    (coletarChavesAzure [str "portal/ds/idEmpresa=1/Ano=2024/Mes=01/f.parquet"]
      (str "portal/ds")
      ⟨[str "idEmpresa=1/Ano=2024/Mes=01"], [str "idEmpresa=1"], [str "idEmpresa=1"]⟩).count
      (str "portal/ds/idEmpresa=1/Ano=2024/Mes=01/f.parquet") = 3 := by decide

/-- Claim C5 (code-bug evidence).  A planner-produced S3 plan (ExistingSet =
ReloadSet = `{idEmpresa=1}`) schedules one tenant prefix; when more objects
live under that prefix than fit in one listing page (page size 2 here; 1000
for the real S3 API), the key-collection loop of `limpar_prefixo_no_s3` —
which issues a single `list_objects_v2` call per plan entry and never follows
the continuation token — misses the key `portal/ds/idEmpresa=1/c.pq` that the
module's own paginating lister `listar_objetos_s3` does return. -/
theorem c5_coleta_nao_paginada_perde_chaves :
    definir_particoes_para_exclusao_s3 [str "idEmpresa=1"] [str "idEmpresa=1"] =
      some ⟨[], [], [], [str "idEmpresa=1"]⟩ ∧
    membro (str "portal/ds/idEmpresa=1/c.pq")
      [str "portal/ds/idEmpresa=1/a.pq", str "portal/ds/idEmpresa=1/b.pq",
       str "portal/ds/idEmpresa=1/c.pq"] = true ∧
    (prefixoDelecao (str "portal/ds") (str "idEmpresa=1")).isPrefixOf
      (str "portal/ds/idEmpresa=1/c.pq") = true ∧
    membro (str "portal/ds/idEmpresa=1/c.pq")
      (listar_objetos_s3
        [str "portal/ds/idEmpresa=1/a.pq", str "portal/ds/idEmpresa=1/b.pq",
         str "portal/ds/idEmpresa=1/c.pq"]
        (prefixoDelecao (str "portal/ds") (str "idEmpresa=1"))) = true ∧
    membro (str "portal/ds/idEmpresa=1/c.pq")
      (coletarChavesS3 2
        [str "portal/ds/idEmpresa=1/a.pq", str "portal/ds/idEmpresa=1/b.pq",
         str "portal/ds/idEmpresa=1/c.pq"]
        (str "portal/ds") ⟨[], [], [], [str "idEmpresa=1"]⟩) = false := by decide

/-- Claim C9 (counterexample).  An S3 configuration with no client, no
`access_key`, no `secret_key` and no `bucket` passes `validar_config_s3`
without any error: the function only builds a client (credential resolution
is deferred by the SDK) and contains no validation at all, so the claim that
validation "raises an error immediately" for missing S3 credentials or bucket
is false. -/
theorem c9_validacao_s3_nunca_falha_contraexemplo :
    validar_config_s3 ⟨none, none, none, none, none⟩ =
      Except.ok ⟨some (), none, none, none, none⟩ := rfl

/-- Claim C10 (confirmed).  Grouping by raw `startswith` without a `/`
separator crosses tenant boundaries: (a) in the tenant-only branch, reloading
tenant `idEmpresa=1` schedules a full delete of `idEmpresa=1` although the
only existing partition belongs to the DIFFERENT tenant `idEmpresa=10` (which
merely string-extends `idEmpresa=1`); (b) in the date branch, tenant
`idEmpresa=1` is fully reloaded (its only partition is at the excluded `Mes`
level) yet both its `Ano` rollup and its `idEmpresa` promotion are blocked,
because the foreign partition `idEmpresa=10/Ano=2023/Mes=05` matches the
`startswith("idEmpresa=1")` grouping. -/
theorem c10_startswith_sem_separador_cruza_tenants :
    (membro (str "idEmpresa=1")
        (nivelIdEmpresaS3 (definir_particoes_para_exclusao_s3
          [str "idEmpresa=10"] [str "idEmpresa=1"])) = true ∧
      (str "idEmpresa=10" == str "idEmpresa=1") = false ∧
      (str "idEmpresa=1" ++ [sep]).isPrefixOf (str "idEmpresa=10") = false) ∧
    (nivelIdEmpresaAzure (definir_particoes_para_exclusao_azure
        [str "idEmpresa=1/Ano=2024/Mes=01", str "idEmpresa=10/Ano=2023/Mes=05"]
        [str "idEmpresa=1/Ano=2024/Mes=01"]) = [] ∧
      nivelAnoAzure (definir_particoes_para_exclusao_azure
        [str "idEmpresa=1/Ano=2024/Mes=01", str "idEmpresa=10/Ano=2023/Mes=05"]
        [str "idEmpresa=1/Ano=2024/Mes=01"]) = [] ∧
      membro (str "idEmpresa=1/Ano=2024/Mes=01")
        (nivelMesAzure (definir_particoes_para_exclusao_azure
          [str "idEmpresa=1/Ano=2024/Mes=01", str "idEmpresa=10/Ano=2023/Mes=05"]
          [str "idEmpresa=1/Ano=2024/Mes=01"])) = true ∧
      [str "idEmpresa=1/Ano=2024/Mes=01", str "idEmpresa=10/Ano=2023/Mes=05"].filter
        (fun p => (str "idEmpresa=1" ++ [sep]).isPrefixOf p) =
        [str "idEmpresa=1/Ano=2024/Mes=01"]) := by decide

/-- Helper: a flatMap of per-prefix store filters is duplicate-free when the
store is and the prefixes select pairwise-disjoint keys. -/
lemma nodup_coleta_disjunta (store : List Str) (f : Str → Str) :
    ∀ l : List Str, store.Nodup →
      l.Pairwise (fun p q => ∀ k ∈ store,
        ¬((f p).isPrefixOf k = true ∧ (f q).isPrefixOf k = true)) →
      (l.flatMap (fun part =>
        (store.filter (fun k => (f part).isPrefixOf k)).filter
          (fun k => !terminaComBarra k))).Nodup
  | [], _, _ => by simp
  | p :: t, hs, hp => by
    rw [List.flatMap_cons, List.nodup_append]
    obtain ⟨hhead, htail⟩ := List.pairwise_cons.mp hp
    refine ⟨(hs.filter _).filter _, nodup_coleta_disjunta store f t hs htail, ?_⟩
    intro k hk1 hk2
    obtain ⟨hk1a, _⟩ := List.mem_filter.mp hk1
    obtain ⟨hkst, hkp⟩ := List.mem_filter.mp hk1a
    obtain ⟨q, hq, hkq⟩ := List.mem_flatMap.mp hk2
    obtain ⟨hkq1, _⟩ := List.mem_filter.mp hkq
    obtain ⟨_, hkqp⟩ := List.mem_filter.mp hkq1
    exact hhead q hq k hkst ⟨hkp, hkqp⟩

/-- Claim C4 (amended).  The collection loop performs no deduplication, so the
key list handed to the bulk-delete executor is duplicate-free exactly when no
two plan entries' delete prefixes match a common stored key (given a
duplicate-free listing); when entries at different levels cover the same
object its key is collected once per covering entry. -/
theorem c4_amendado_sem_duplicatas_quando_prefixos_disjuntos (store : List Str)
    (dest : Str) (pl : PlanoAzure) (hstore : store.Nodup)
    (hdisj : (entradasAzure pl).Pairwise (fun p q => ∀ k ∈ store,
      ¬((prefixoDelecao dest p).isPrefixOf k = true ∧
        (prefixoDelecao dest q).isPrefixOf k = true))) :
    (coletarChavesAzure store dest pl).Nodup :=
  nodup_coleta_disjunta store (fun part => prefixoDelecao dest part)
    (entradasAzure pl) hstore hdisj

/-- Witness for `c4_amendado_sem_duplicatas_quando_prefixos_disjuntos`: a
single-entry plan over a one-object store satisfies both hypotheses and yields
a duplicate-free key list. -/
theorem c4_amendado_witness :
    ([str "portal/ds/idEmpresa=1/Ano=2024/Mes=01/f.parquet"] : List Str).Nodup ∧
    (entradasAzure ⟨[str "idEmpresa=1/Ano=2024/Mes=01"], [], []⟩).Pairwise
      (fun p q => ∀ k ∈ ([str "portal/ds/idEmpresa=1/Ano=2024/Mes=01/f.parquet"] : List Str),
        ¬((prefixoDelecao (str "portal/ds") p).isPrefixOf k = true ∧
          (prefixoDelecao (str "portal/ds") q).isPrefixOf k = true)) ∧
    (coletarChavesAzure [str "portal/ds/idEmpresa=1/Ano=2024/Mes=01/f.parquet"]
      (str "portal/ds") ⟨[str "idEmpresa=1/Ano=2024/Mes=01"], [], []⟩).Nodup :=
  ⟨by decide, by decide,
    c4_amendado_sem_duplicatas_quando_prefixos_disjuntos _ _ _ (by decide) (by decide)⟩

/-- Helper: the successful destinations collected by the upload orchestrator
are exactly the destination keys of the files whose upload did not fail. -/
lemma upload_aux_enviados (dest : Str) (upErr : Str → Option String) :
    ∀ l : List Str,
      (l.map (fun rel => match upErr rel with
        | none => (Except.ok (destinoDe dest rel) : Except String Str)
        | some e => Except.error e)).filterMap
        (fun r => match r with | Except.ok d => some d | _ => none) =
      (l.filter (fun rel => (upErr rel).isNone)).map (destinoDe dest)
  | [] => rfl
  | rel :: t => by
    cases h : upErr rel <;>
      simp [h, upload_aux_enviados dest upErr t]

/-- Helper: the errors collected by the upload orchestrator are exactly the
error messages of the files whose upload failed. -/
lemma upload_aux_erros (dest : Str) (upErr : Str → Option String) :
    ∀ l : List Str,
      (l.map (fun rel => match upErr rel with
        | none => (Except.ok (destinoDe dest rel) : Except String Str)
        | some e => Except.error e)).filterMap
        (fun r => match r with | Except.error e => some e | _ => none) =
      l.filterMap upErr
  | [] => rfl
  | rel :: t => by
    cases h : upErr rel <;>
      simp [h, upload_aux_erros dest upErr t]

/-- Helper: successes and failures partition the file list. -/
lemma upload_aux_tamanho (upErr : Str → Option String) :
    ∀ l : List Str,
      (l.filter (fun rel => (upErr rel).isNone)).length + (l.filterMap upErr).length =
        l.length
  | [] => rfl
  | rel :: t => by
    have ih := upload_aux_tamanho upErr t
    cases h : upErr rel <;> simp [h] <;> omega

/-- The upload orchestrator in closed form: every file is attempted and the
result is the full partition of per-file outcomes. -/
lemma realizar_upload_async_eq (dest : Str) (upErr : Str → Option String) :
    ∀ l : List Str,
      realizar_upload_async dest l upErr =
        ⟨(l.filter (fun rel => (upErr rel).isNone)).map (destinoDe dest),
         l.filterMap upErr⟩
  | [] => rfl
  | rel :: t => by
    unfold realizar_upload_async
    simp only [List.isEmpty_cons, Bool.false_eq_true, if_false]
    exact congrArg₂ ResultadoUpload.mk
      (upload_aux_enviados dest upErr (rel :: t)) (upload_aux_erros dest upErr (rel :: t))

/-- Claim C7 (confirmed).  The upload orchestrator (identical logic in
`realizar_upload_s3_async` and `realizar_upload_azure_async`) attempts every
file regardless of individual failures and returns the full partition of
outcomes: the succeeded destination keys of the files whose upload did not
fail, the error messages of those that did (so `n` files with `k` failures
yield `n - k` destinations and `k` errors), never raising; an empty source
directory yields the empty result. -/
theorem c7_upload_tenta_todos_e_particiona (dest : Str) (arquivos : List Str)
    (upErr : Str → Option String) :
    (realizar_upload_async dest arquivos upErr).enviados =
      (arquivos.filter (fun rel => (upErr rel).isNone)).map (destinoDe dest) ∧
    (realizar_upload_async dest arquivos upErr).erros = arquivos.filterMap upErr ∧
    (realizar_upload_async dest arquivos upErr).enviados.length +
      (realizar_upload_async dest arquivos upErr).erros.length = arquivos.length ∧
    realizar_upload_async dest [] upErr = ⟨[], []⟩ := by
  rw [realizar_upload_async_eq]
  exact ⟨rfl, rfl,
    by simpa using upload_aux_tamanho upErr arquivos,
    rfl⟩

/-- Claim C6 (confirmed).  If at least one bulk-delete chunk fails: every
chunk is still submitted (the call list is the full chunking of the input
keys, independent of which chunks failed), the executor raises the single
aggregate failure only after the result loop has drained every chunk, and any
backend run whose delete phase raised skips the upload phase entirely and
reports `False` to the coordinator. -/
theorem c6_falha_de_lote_agrega_e_pula_upload :
    (∀ (objectKeys : List Str) (delErr : List Str → Option String),
      (∃ c ∈ chunk_list objectKeys 1000, (delErr c).isSome = true) →
      executar_exclusao_objetos_batch delErr objectKeys false =
        ⟨chunk_list objectKeys 1000, none, true⟩) ∧
    (∀ (pageSize : Nat) (store : List Str) (dest : Str) (recarregadas : List Str)
        (delErr : List Str → Option String) (arquivos : List Str)
        (upErr : Str → Option String),
      exclusaoFalhou (realizar_upload_s3 pageSize store dest recarregadas delErr false
        arquivos upErr) = true →
      (realizar_upload_s3 pageSize store dest recarregadas delErr false arquivos
        upErr).uploadExecutado = false ∧
      enviar_para_s3 pageSize store dest recarregadas delErr false arquivos upErr =
        false) := by
  constructor
  · intro objectKeys delErr h
    obtain ⟨c, hc, hcs⟩ := h
    have hmem : c ∈ (chunk_list objectKeys 1000).filter (fun c => (delErr c).isSome) :=
      List.mem_filter.mpr ⟨hc, hcs⟩
    have hne : (chunk_list objectKeys 1000).filter (fun c => (delErr c).isSome) ≠ [] :=
      List.ne_nil_of_mem hmem
    unfold executar_exclusao_objetos_batch
    simp [hne]
  · intro pageSize store dest recarregadas delErr arquivos upErr h
    cases hl : limpar_prefixo_no_s3 pageSize store dest recarregadas delErr false with
    | none =>
      unfold exclusaoFalhou realizar_upload_s3 at h
      rw [hl] at h
      simp at h
    | some r =>
      unfold exclusaoFalhou realizar_upload_s3 at h
      rw [hl] at h
      cases hf : r.falhou with
      | false => simp [hf] at h
      | true =>
        unfold enviar_para_s3 realizar_upload_s3 exclusaoFalhou
        rw [hl]
        simp [hf]

/-- Witness for `c6_falha_de_lote_agrega_e_pula_upload`: a one-key delete whose
single chunk fails yields the aggregate failure record, and a concrete backend
run whose delete phase failed skips the upload and reports `False`. -/
theorem c6_falha_de_lote_witness :
    executar_exclusao_objetos_batch (fun _ => some "boom") [str "k"] false =
      ⟨[[str "k"]], none, true⟩ ∧
    (realizar_upload_s3 10 [str "pp/ds/idEmpresa=1/f.pq"] (str "pp/ds")
      [str "idEmpresa=1"] (fun _ => some "boom") false [str "idEmpresa=1/f.pq"]
      (fun _ => none)).uploadExecutado = false ∧
    enviar_para_s3 10 [str "pp/ds/idEmpresa=1/f.pq"] (str "pp/ds")
      [str "idEmpresa=1"] (fun _ => some "boom") false [str "idEmpresa=1/f.pq"]
      (fun _ => none) = false :=
  ⟨c6_falha_de_lote_agrega_e_pula_upload.1 [str "k"] (fun _ => some "boom")
      ⟨[str "k"], by decide, by decide⟩,
    (c6_falha_de_lote_agrega_e_pula_upload.2 10 [str "pp/ds/idEmpresa=1/f.pq"]
      (str "pp/ds") [str "idEmpresa=1"] (fun _ => some "boom")
      [str "idEmpresa=1/f.pq"] (fun _ => none) (by decide)).1,
    (c6_falha_de_lote_agrega_e_pula_upload.2 10 [str "pp/ds/idEmpresa=1/f.pq"]
      (str "pp/ds") [str "idEmpresa=1"] (fun _ => some "boom")
      [str "idEmpresa=1/f.pq"] (fun _ => none) (by decide)).2⟩

/-- Helper for C8: a dry-run cleanup either returns early (nothing matched) or
reaches the executor, which issues zero delete calls and only reports the
would-be key count. -/
lemma limpar_dry_run (pageSize : Nat) (store : List Str) (dest : Str)
    (recarregadas : List Str) (delErr : List Str → Option String) :
    limpar_prefixo_no_s3 pageSize store dest recarregadas delErr true = none ∨
    ∃ n, limpar_prefixo_no_s3 pageSize store dest recarregadas delErr true =
      some ⟨[], some n, false⟩ := by
  simp only [limpar_prefixo_no_s3]
  split
  · exact Or.inl rfl
  · split
    · exact Or.inl rfl
    · split
      · exact Or.inl rfl
      · split
        · exact Or.inl rfl
        · exact Or.inr ⟨_, rfl⟩

/-- Claim C8 (confirmed).  With `dry_run = True` the delete executor submits
zero delete calls and reports only the count of keys that would have been
deleted; the cleanup therefore issues no delete call at all, never raises, and
the upload phase proceeds normally on the same file list. -/
theorem c8_dry_run_nao_deleta_e_upload_prossegue :
    (∀ (objectKeys : List Str) (delErr : List Str → Option String),
      executar_exclusao_objetos_batch delErr objectKeys true =
        ⟨[], some objectKeys.length, false⟩) ∧
    (∀ (pageSize : Nat) (store : List Str) (dest : Str) (recarregadas : List Str)
        (delErr : List Str → Option String) (arquivos : List Str)
        (upErr : Str → Option String),
      chamadasDe (limpar_prefixo_no_s3 pageSize store dest recarregadas delErr true) =
        [] ∧
      (realizar_upload_s3 pageSize store dest recarregadas delErr true arquivos
        upErr).uploadExecutado = true ∧
      (realizar_upload_s3 pageSize store dest recarregadas delErr true arquivos
        upErr).upload = realizar_upload_async dest arquivos upErr) := by
  constructor
  · intro objectKeys delErr
    rfl
  · intro pageSize store dest recarregadas delErr arquivos upErr
    rcases limpar_dry_run pageSize store dest recarregadas delErr with hl | ⟨n, hl⟩ <;>
      simp [chamadasDe, realizar_upload_s3, hl]

/-- Claim C9 (amended).  The Azure validator raises exactly when no client is
present and `account_name` or `account_key` is missing; the S3 validator never
raises, whatever is missing (it has no checks — missing bucket or credentials
only surface later, outside validation), and neither validator checks the
bucket/container identifier. -/
theorem c9_amendado_validacao_real (a : ConfigAzure) (c : ConfigS3) :
    ((∃ e, validar_config_azure a = Except.error e) ↔
      (a.blob_service_client = none ∧
        ¬(a.account_name.isSome = true ∧ a.account_key.isSome = true))) ∧
    ∃ cfg, validar_config_s3 c = Except.ok cfg := by
  rcases a with ⟨bc, an, ak, cn⟩
  rcases c with ⟨sc, c1, c2, c3, c4⟩
  constructor
  · cases bc <;> cases an <;> cases ak <;>
      simp [validar_config_azure]
  · cases sc <;> exact ⟨_, rfl⟩

end Extrator
